import Mathlib

/-!
Verification development for the AUTOSAR-designer data model.

The definitions below are a shallow embedding of the Python source:
* `src/model/elements.py`  — entity model, serialization, connection validation
* `src/model/multifile.py` — multi-file project assembly, merge cache
* `src/codegen/generator.py` — base-type to target-type mapping
* `src/gui/main_window.py`  — cascading delete of a software component

Python floats are carried opaquely (no arithmetic is performed on them by
the code under verification), so they are embedded as `Rat`; Python ints
as `Int`; fallible decoding (`from_dict`) as `Except SchemaError`.
-/

namespace Autosar

/-! ## Enumerations (src/model/elements.py) -/

inductive PortDirection
  | provided
  | required
deriving DecidableEq

def PortDirection.value : PortDirection → String
  | .provided => "provided"
  | .required => "required"

/-- Python `PortDirection(tag)`: succeeds only on a recognized tag. -/
def PortDirection.ofTag? (s : String) : Option PortDirection :=
  if s = "provided" then some .provided
  else if s = "required" then some .required
  else none

inductive InterfaceType
  | sender_receiver
  | client_server
deriving DecidableEq

def InterfaceType.value : InterfaceType → String
  | .sender_receiver => "sender_receiver"
  | .client_server => "client_server"

def InterfaceType.ofTag? (s : String) : Option InterfaceType :=
  if s = "sender_receiver" then some .sender_receiver
  else if s = "client_server" then some .client_server
  else none

inductive BaseDataType
  | uint8
  | uint16
  | uint32
  | uint64
  | int8
  | int16
  | int32
  | int64
  | float32
  | float64
  | boolean
deriving DecidableEq

def BaseDataType.value : BaseDataType → String
  | .uint8 => "uint8"
  | .uint16 => "uint16"
  | .uint32 => "uint32"
  | .uint64 => "uint64"
  | .int8 => "int8"
  | .int16 => "int16"
  | .int32 => "int32"
  | .int64 => "int64"
  | .float32 => "float32"
  | .float64 => "float64"
  | .boolean => "boolean"

def BaseDataType.ofTag? (s : String) : Option BaseDataType :=
  if s = "uint8" then some .uint8
  else if s = "uint16" then some .uint16
  else if s = "uint32" then some .uint32
  else if s = "uint64" then some .uint64
  else if s = "int8" then some .int8
  else if s = "int16" then some .int16
  else if s = "int32" then some .int32
  else if s = "int64" then some .int64
  else if s = "float32" then some .float32
  else if s = "float64" then some .float64
  else if s = "boolean" then some .boolean
  else none

inductive AppDataCategory
  | value
  | array
  | struct
  | enum
deriving DecidableEq

def AppDataCategory.tag : AppDataCategory → String
  | .value => "value"
  | .array => "array"
  | .struct => "structure"
  | .enum => "enum"

def AppDataCategory.ofTag? (s : String) : Option AppDataCategory :=
  if s = "value" then some .value
  else if s = "array" then some .array
  else if s = "structure" then some .struct
  else if s = "enum" then some .enum
  else none

inductive ArgumentDirection
  | in_
  | out
  | inout
deriving DecidableEq

def ArgumentDirection.value : ArgumentDirection → String
  | .in_ => "in"
  | .out => "out"
  | .inout => "inout"

def ArgumentDirection.ofTag? (s : String) : Option ArgumentDirection :=
  if s = "in" then some .in_
  else if s = "out" then some .out
  else if s = "inout" then some .inout
  else none

/-! ## Entities (src/model/elements.py) -/

structure CompuMethod where
  name : String
  factor : Rat := 1
  offset : Rat := 0
  unit : String := ""
  description : String := ""
  uid : String
deriving DecidableEq

structure ApplicationDataType where
  name : String
  category : AppDataCategory := .value
  compu_method_uid : Option String := none
  min_value : Option Rat := none
  max_value : Option Rat := none
  init_value : String := "0"
  description : String := ""
  array_size : Int := 1
  element_type_uid : Option String := none
  struct_members : List (String × String) := []
  enum_literals : List (String × Int) := []
  uid : String
deriving DecidableEq

structure ImplementationDataType where
  name : String
  base_type : BaseDataType := .uint8
  is_array : Bool := false
  array_size : Int := 1
  is_struct : Bool := false
  struct_members : List (String × String) := []
  description : String := ""
  uid : String
deriving DecidableEq

structure DataTypeMapping where
  app_type_uid : String
  impl_type_uid : String
  uid : String
deriving DecidableEq

structure DataElement where
  name : String
  app_type_uid : Option String := none
  base_type : BaseDataType := .uint8
  init_value : String := "0"
  description : String := ""
  uid : String
deriving DecidableEq

structure OperationArgument where
  name : String
  direction : ArgumentDirection := .in_
  app_type_uid : Option String := none
  base_type : BaseDataType := .uint8
  description : String := ""
  uid : String
deriving DecidableEq

structure Operation where
  name : String
  return_type_uid : Option String := none
  return_base_type : BaseDataType := .uint8
  arguments : List OperationArgument := []
  description : String := ""
  uid : String
deriving DecidableEq

structure Interface where
  name : String
  interface_type : InterfaceType := .sender_receiver
  data_elements : List DataElement := []
  operations : List Operation := []
  description : String := ""
  uid : String
deriving DecidableEq

structure Port where
  name : String
  direction : PortDirection := .required
  interface_uid : Option String := none
  description : String := ""
  uid : String
deriving DecidableEq

structure Runnable where
  name : String
  period_ms : Int := 10
  description : String := ""
  uid : String
deriving DecidableEq

structure SoftwareComponent where
  name : String
  ports : List Port := []
  runnables : List Runnable := []
  description : String := ""
  uid : String
deriving DecidableEq

structure PortConnection where
  name : String
  provider_swc_uid : String
  provider_port_uid : String
  requester_swc_uid : String
  requester_port_uid : String
  description : String := ""
  uid : String
deriving DecidableEq

structure Project where
  name : String := "Untitled Project"
  description : String := ""
  compu_methods : List CompuMethod := []
  application_data_types : List ApplicationDataType := []
  implementation_data_types : List ImplementationDataType := []
  data_type_mappings : List DataTypeMapping := []
  interfaces : List Interface := []
  components : List SoftwareComponent := []
  connections : List PortConnection := []
deriving DecidableEq

/-! ## Lookup helpers (src/model/elements.py, `Project` methods) -/

def SoftwareComponent.get_port_by_uid (c : SoftwareComponent) (uid : String) : Option Port :=
  c.ports.find? (fun p => p.uid == uid)

def Project.get_interface_by_uid (p : Project) (uid : String) : Option Interface :=
  p.interfaces.find? (fun i => i.uid == uid)

def Project.get_component_by_uid (p : Project) (uid : String) : Option SoftwareComponent :=
  p.components.find? (fun c => c.uid == uid)

def Project.get_app_type_by_uid (p : Project) (uid : String) : Option ApplicationDataType :=
  p.application_data_types.find? (fun a => a.uid == uid)

def Project.get_impl_type_by_uid (p : Project) (uid : String) : Option ImplementationDataType :=
  p.implementation_data_types.find? (fun i => i.uid == uid)

/-- The loop of `Project.get_impl_type_for_app_type`: scan the mapping
list in order; the first mapping whose `app_type_uid` matches decides the
answer (the body returns immediately, whether or not the impl type
resolves). -/
def findMappedImplType (p : Project) (app_type_uid : String) :
    List DataTypeMapping → Option ImplementationDataType
  | [] => none
  | m :: rest =>
    if m.app_type_uid == app_type_uid then p.get_impl_type_by_uid m.impl_type_uid
    else findMappedImplType p app_type_uid rest

def Project.get_impl_type_for_app_type (p : Project) (app_type_uid : String) :
    Option ImplementationDataType :=
  findMappedImplType p app_type_uid p.data_type_mappings

/-! ## Connection validation (src/model/elements.py, `Project.validate_connection`) -/

def Project.validate_connection (p : Project)
    (provider_swc_uid provider_port_uid requester_swc_uid requester_port_uid : String) :
    Bool × String :=
  match p.get_component_by_uid provider_swc_uid with
  | none => (false, "Provider SWC not found")
  | some provider_swc =>
    match p.get_component_by_uid requester_swc_uid with
    | none => (false, "Requester SWC not found")
    | some requester_swc =>
      match provider_swc.get_port_by_uid provider_port_uid with
      | none => (false, "Provider port not found")
      | some provider_port =>
        match requester_swc.get_port_by_uid requester_port_uid with
        | none => (false, "Requester port not found")
        | some requester_port =>
          if provider_port.direction ≠ PortDirection.provided then
            (false, "Provider port must have \x27provided\x27 direction")
          else if requester_port.direction ≠ PortDirection.required then
            (false, "Requester port must have \x27required\x27 direction")
          else if provider_port.interface_uid ≠ requester_port.interface_uid then
            (false, "Ports must share the same interface")
          else if p.connections.any (fun c =>
              c.provider_port_uid == provider_port_uid &&
              c.requester_port_uid == requester_port_uid) then
            (false, "Connection already exists")
          else
            (true, "Valid")

/-! ## Persisted documents

Each `...Doc` structure mirrors the dictionary written by the Python
`to_dict` of the corresponding entity: one field per dictionary key.
A field is `Option`-typed because `from_dict` reads it with
`data.get(key, default)` (absent and `null` collapse to `none`; for keys
whose Python default is `None` the payload itself is the `Option`).
Decoding failures — `KeyError` on a required key, `ValueError` from an
`Enum` call on an unrecognized tag — are modelled as `SchemaError`. -/

inductive SchemaError
  | missingKey (key : String)
  | invalidTag (kind tag : String)
deriving DecidableEq

/-- Stand-in for the fresh `str(uuid.uuid4())[:8]` drawn by `from_dict`
when a document omits `uid`; every `to_dict` writes `uid`, so no claim
depends on its value. -/
def freshUid : String := "00000000"

/-- Read a required key (`KeyError` when absent). -/
def requireKey (key : String) : Option α → Except SchemaError α
  | some v => .ok v
  | none => .error (.missingKey key)

/-- Parse a closed enum tag (`ValueError` when unrecognized). -/
def parseTag (kind : String) (p : String → Option α) (tag : String) :
    Except SchemaError α :=
  match p tag with
  | some v => .ok v
  | none => .error (.invalidTag kind tag)

/-- A Python list comprehension `[f(x) for x in l]` whose body may raise:
elements are decoded left to right and the first failure propagates. -/
def exceptMap (f : β → Except SchemaError α) : List β → Except SchemaError (List α)
  | [] => .ok []
  | b :: bs => do
    let a ← f b
    let as ← exceptMap f bs
    .ok (a :: as)

structure CompuMethodDoc where
  name : Option String
  factor : Option Rat
  offset : Option Rat
  unit : Option String
  description : Option String
  uid : Option String
deriving DecidableEq

def CompuMethod.to_dict (x : CompuMethod) : CompuMethodDoc :=
  { name := some x.name, factor := some x.factor, offset := some x.offset,
    unit := some x.unit, description := some x.description, uid := some x.uid }

def CompuMethod.from_dict (d : CompuMethodDoc) : Except SchemaError CompuMethod := do
  let name ← requireKey "name" d.name
  .ok { name := name, factor := d.factor.getD 1, offset := d.offset.getD 0,
        unit := d.unit.getD "", description := d.description.getD "",
        uid := d.uid.getD freshUid }

/-- Entry of an `ApplicationDataType` `struct_members` list: `{"name", "type_uid"}`. -/
structure StructMemberDoc where
  name : Option String
  type_uid : Option String
deriving DecidableEq

def StructMemberDoc.decode (m : StructMemberDoc) : Except SchemaError (String × String) := do
  let n ← requireKey "name" m.name
  let t ← requireKey "type_uid" m.type_uid
  .ok (n, t)

/-- Entry of an `enum_literals` list: `{"name", "value"}`. -/
structure EnumLiteralDoc where
  name : Option String
  value : Option Int
deriving DecidableEq

def EnumLiteralDoc.decode (e : EnumLiteralDoc) : Except SchemaError (String × Int) := do
  let n ← requireKey "name" e.name
  let v ← requireKey "value" e.value
  .ok (n, v)

structure ApplicationDataTypeDoc where
  name : Option String
  category : Option String
  compu_method_uid : Option String
  min_value : Option Rat
  max_value : Option Rat
  init_value : Option String
  description : Option String
  array_size : Option Int
  element_type_uid : Option String
  struct_members : Option (List StructMemberDoc)
  enum_literals : Option (List EnumLiteralDoc)
  uid : Option String
deriving DecidableEq

def ApplicationDataType.to_dict (x : ApplicationDataType) : ApplicationDataTypeDoc :=
  { name := some x.name, category := some x.category.tag,
    compu_method_uid := x.compu_method_uid,
    min_value := x.min_value, max_value := x.max_value,
    init_value := some x.init_value, description := some x.description,
    array_size := some x.array_size, element_type_uid := x.element_type_uid,
    struct_members := some (x.struct_members.map fun m => ⟨some m.1, some m.2⟩),
    enum_literals := some (x.enum_literals.map fun e => ⟨some e.1, some e.2⟩),
    uid := some x.uid }

def ApplicationDataType.from_dict (d : ApplicationDataTypeDoc) :
    Except SchemaError ApplicationDataType := do
  let struct_members ← exceptMap StructMemberDoc.decode (d.struct_members.getD [])
  let enum_literals ← exceptMap EnumLiteralDoc.decode (d.enum_literals.getD [])
  let name ← requireKey "name" d.name
  let category ← parseTag "AppDataCategory" AppDataCategory.ofTag? (d.category.getD "value")
  .ok { name := name, category := category,
        compu_method_uid := d.compu_method_uid,
        min_value := d.min_value, max_value := d.max_value,
        init_value := d.init_value.getD "0", description := d.description.getD "",
        array_size := d.array_size.getD 1, element_type_uid := d.element_type_uid,
        struct_members := struct_members, enum_literals := enum_literals,
        uid := d.uid.getD freshUid }

/-- Entry of an `ImplementationDataType` `struct_members` list: `{"name", "type"}`. -/
structure ImplMemberDoc where
  name : Option String
  type : Option String
deriving DecidableEq

def ImplMemberDoc.decode (m : ImplMemberDoc) : Except SchemaError (String × String) := do
  let n ← requireKey "name" m.name
  let t ← requireKey "type" m.type
  .ok (n, t)

structure ImplementationDataTypeDoc where
  name : Option String
  base_type : Option String
  is_array : Option Bool
  array_size : Option Int
  is_struct : Option Bool
  struct_members : Option (List ImplMemberDoc)
  description : Option String
  uid : Option String
deriving DecidableEq

def ImplementationDataType.to_dict (x : ImplementationDataType) : ImplementationDataTypeDoc :=
  { name := some x.name, base_type := some x.base_type.value,
    is_array := some x.is_array, array_size := some x.array_size,
    is_struct := some x.is_struct,
    struct_members := some (x.struct_members.map fun m => ⟨some m.1, some m.2⟩),
    description := some x.description, uid := some x.uid }

def ImplementationDataType.from_dict (d : ImplementationDataTypeDoc) :
    Except SchemaError ImplementationDataType := do
  let struct_members ← exceptMap ImplMemberDoc.decode (d.struct_members.getD [])
  let name ← requireKey "name" d.name
  let base_type ← parseTag "BaseDataType" BaseDataType.ofTag? (d.base_type.getD "uint8")
  .ok { name := name, base_type := base_type,
        is_array := d.is_array.getD false, array_size := d.array_size.getD 1,
        is_struct := d.is_struct.getD false, struct_members := struct_members,
        description := d.description.getD "", uid := d.uid.getD freshUid }

structure DataTypeMappingDoc where
  app_type_uid : Option String
  impl_type_uid : Option String
  uid : Option String
deriving DecidableEq

def DataTypeMapping.to_dict (x : DataTypeMapping) : DataTypeMappingDoc :=
  { app_type_uid := some x.app_type_uid, impl_type_uid := some x.impl_type_uid,
    uid := some x.uid }

def DataTypeMapping.from_dict (d : DataTypeMappingDoc) : Except SchemaError DataTypeMapping := do
  let a ← requireKey "app_type_uid" d.app_type_uid
  let i ← requireKey "impl_type_uid" d.impl_type_uid
  .ok { app_type_uid := a, impl_type_uid := i, uid := d.uid.getD freshUid }

structure DataElementDoc where
  name : Option String
  app_type_uid : Option String
  base_type : Option String
  init_value : Option String
  description : Option String
  uid : Option String
deriving DecidableEq

def DataElement.to_dict (x : DataElement) : DataElementDoc :=
  { name := some x.name, app_type_uid := x.app_type_uid,
    base_type := some x.base_type.value, init_value := some x.init_value,
    description := some x.description, uid := some x.uid }

def DataElement.from_dict (d : DataElementDoc) : Except SchemaError DataElement := do
  let name ← requireKey "name" d.name
  let base_type ← parseTag "BaseDataType" BaseDataType.ofTag? (d.base_type.getD "uint8")
  .ok { name := name, app_type_uid := d.app_type_uid, base_type := base_type,
        init_value := d.init_value.getD "0", description := d.description.getD "",
        uid := d.uid.getD freshUid }

structure OperationArgumentDoc where
  name : Option String
  direction : Option String
  app_type_uid : Option String
  base_type : Option String
  description : Option String
  uid : Option String
deriving DecidableEq

def OperationArgument.to_dict (x : OperationArgument) : OperationArgumentDoc :=
  { name := some x.name, direction := some x.direction.value,
    app_type_uid := x.app_type_uid, base_type := some x.base_type.value,
    description := some x.description, uid := some x.uid }

def OperationArgument.from_dict (d : OperationArgumentDoc) :
    Except SchemaError OperationArgument := do
  let name ← requireKey "name" d.name
  let direction ← parseTag "ArgumentDirection" ArgumentDirection.ofTag? (d.direction.getD "in")
  let base_type ← parseTag "BaseDataType" BaseDataType.ofTag? (d.base_type.getD "uint8")
  .ok { name := name, direction := direction, app_type_uid := d.app_type_uid,
        base_type := base_type, description := d.description.getD "",
        uid := d.uid.getD freshUid }

structure OperationDoc where
  name : Option String
  return_type_uid : Option String
  return_base_type : Option String
  arguments : Option (List OperationArgumentDoc)
  description : Option String
  uid : Option String
deriving DecidableEq

def Operation.to_dict (x : Operation) : OperationDoc :=
  { name := some x.name, return_type_uid := x.return_type_uid,
    return_base_type := some x.return_base_type.value,
    arguments := some (x.arguments.map OperationArgument.to_dict),
    description := some x.description, uid := some x.uid }

def Operation.from_dict (d : OperationDoc) : Except SchemaError Operation := do
  let args ← exceptMap OperationArgument.from_dict (d.arguments.getD [])
  let name ← requireKey "name" d.name
  let rbt ← parseTag "BaseDataType" BaseDataType.ofTag? (d.return_base_type.getD "uint8")
  .ok { name := name, return_type_uid := d.return_type_uid, return_base_type := rbt,
        arguments := args, description := d.description.getD "",
        uid := d.uid.getD freshUid }

structure InterfaceDoc where
  name : Option String
  interface_type : Option String
  data_elements : Option (List DataElementDoc)
  operations : Option (List OperationDoc)
  description : Option String
  uid : Option String
deriving DecidableEq

def Interface.to_dict (x : Interface) : InterfaceDoc :=
  { name := some x.name, interface_type := some x.interface_type.value,
    data_elements := some (x.data_elements.map DataElement.to_dict),
    operations := some (x.operations.map Operation.to_dict),
    description := some x.description, uid := some x.uid }

def Interface.from_dict (d : InterfaceDoc) : Except SchemaError Interface := do
  let name ← requireKey "name" d.name
  let it ← parseTag "InterfaceType" InterfaceType.ofTag? (d.interface_type.getD "sender_receiver")
  let des ← exceptMap DataElement.from_dict (d.data_elements.getD [])
  let ops ← exceptMap Operation.from_dict (d.operations.getD [])
  .ok { name := name, interface_type := it, data_elements := des, operations := ops,
        description := d.description.getD "", uid := d.uid.getD freshUid }

structure PortDoc where
  name : Option String
  direction : Option String
  interface_uid : Option String
  description : Option String
  uid : Option String
deriving DecidableEq

def Port.to_dict (x : Port) : PortDoc :=
  { name := some x.name, direction := some x.direction.value,
    interface_uid := x.interface_uid, description := some x.description,
    uid := some x.uid }

def Port.from_dict (d : PortDoc) : Except SchemaError Port := do
  let name ← requireKey "name" d.name
  let direction ← parseTag "PortDirection" PortDirection.ofTag? (d.direction.getD "required")
  .ok { name := name, direction := direction, interface_uid := d.interface_uid,
        description := d.description.getD "", uid := d.uid.getD freshUid }

structure RunnableDoc where
  name : Option String
  period_ms : Option Int
  description : Option String
  uid : Option String
deriving DecidableEq

def Runnable.to_dict (x : Runnable) : RunnableDoc :=
  { name := some x.name, period_ms := some x.period_ms,
    description := some x.description, uid := some x.uid }

def Runnable.from_dict (d : RunnableDoc) : Except SchemaError Runnable := do
  let name ← requireKey "name" d.name
  .ok { name := name, period_ms := d.period_ms.getD 10,
        description := d.description.getD "", uid := d.uid.getD freshUid }

structure SoftwareComponentDoc where
  name : Option String
  ports : Option (List PortDoc)
  runnables : Option (List RunnableDoc)
  description : Option String
  uid : Option String
deriving DecidableEq

def SoftwareComponent.to_dict (x : SoftwareComponent) : SoftwareComponentDoc :=
  { name := some x.name, ports := some (x.ports.map Port.to_dict),
    runnables := some (x.runnables.map Runnable.to_dict),
    description := some x.description, uid := some x.uid }

def SoftwareComponent.from_dict (d : SoftwareComponentDoc) :
    Except SchemaError SoftwareComponent := do
  let name ← requireKey "name" d.name
  let ports ← exceptMap Port.from_dict (d.ports.getD [])
  let runnables ← exceptMap Runnable.from_dict (d.runnables.getD [])
  .ok { name := name, ports := ports, runnables := runnables,
        description := d.description.getD "", uid := d.uid.getD freshUid }

structure PortConnectionDoc where
  name : Option String
  provider_swc_uid : Option String
  provider_port_uid : Option String
  requester_swc_uid : Option String
  requester_port_uid : Option String
  description : Option String
  uid : Option String
deriving DecidableEq

def PortConnection.to_dict (x : PortConnection) : PortConnectionDoc :=
  { name := some x.name, provider_swc_uid := some x.provider_swc_uid,
    provider_port_uid := some x.provider_port_uid,
    requester_swc_uid := some x.requester_swc_uid,
    requester_port_uid := some x.requester_port_uid,
    description := some x.description, uid := some x.uid }

def PortConnection.from_dict (d : PortConnectionDoc) : Except SchemaError PortConnection := do
  let name ← requireKey "name" d.name
  let psu ← requireKey "provider_swc_uid" d.provider_swc_uid
  let ppu ← requireKey "provider_port_uid" d.provider_port_uid
  let rsu ← requireKey "requester_swc_uid" d.requester_swc_uid
  let rpu ← requireKey "requester_port_uid" d.requester_port_uid
  .ok { name := name, provider_swc_uid := psu, provider_port_uid := ppu,
        requester_swc_uid := rsu, requester_port_uid := rpu,
        description := d.description.getD "", uid := d.uid.getD freshUid }

structure ProjectDoc where
  name : Option String
  description : Option String
  compu_methods : Option (List CompuMethodDoc)
  application_data_types : Option (List ApplicationDataTypeDoc)
  implementation_data_types : Option (List ImplementationDataTypeDoc)
  data_type_mappings : Option (List DataTypeMappingDoc)
  interfaces : Option (List InterfaceDoc)
  components : Option (List SoftwareComponentDoc)
  connections : Option (List PortConnectionDoc)
deriving DecidableEq

def Project.to_dict (p : Project) : ProjectDoc :=
  { name := some p.name, description := some p.description,
    compu_methods := some (p.compu_methods.map CompuMethod.to_dict),
    application_data_types := some (p.application_data_types.map ApplicationDataType.to_dict),
    implementation_data_types :=
      some (p.implementation_data_types.map ImplementationDataType.to_dict),
    data_type_mappings := some (p.data_type_mappings.map DataTypeMapping.to_dict),
    interfaces := some (p.interfaces.map Interface.to_dict),
    components := some (p.components.map SoftwareComponent.to_dict),
    connections := some (p.connections.map PortConnection.to_dict) }

def Project.from_dict (d : ProjectDoc) : Except SchemaError Project := do
  let cms ← exceptMap CompuMethod.from_dict (d.compu_methods.getD [])
  let adts ← exceptMap ApplicationDataType.from_dict (d.application_data_types.getD [])
  let idts ← exceptMap ImplementationDataType.from_dict (d.implementation_data_types.getD [])
  let dtms ← exceptMap DataTypeMapping.from_dict (d.data_type_mappings.getD [])
  let ifs ← exceptMap Interface.from_dict (d.interfaces.getD [])
  let comps ← exceptMap SoftwareComponent.from_dict (d.components.getD [])
  let conns ← exceptMap PortConnection.from_dict (d.connections.getD [])
  .ok { name := d.name.getD "Untitled Project", description := d.description.getD "",
        compu_methods := cms, application_data_types := adts,
        implementation_data_types := idts, data_type_mappings := dtms,
        interfaces := ifs, components := comps, connections := conns }

/-! ## Multi-file projects (src/model/multifile.py) -/

structure ModuleReference where
  path : String
  name : String
  description : String := ""
  enabled : Bool := true
deriving DecidableEq

structure MasterProject where
  name : String := "Multi-Module Project"
  description : String := ""
  modules : List ModuleReference := []
  global_connections : List PortConnection := []
deriving DecidableEq

structure Module where
  name : String := "Untitled Module"
  description : String := ""
  compu_methods : List CompuMethod := []
  application_data_types : List ApplicationDataType := []
  implementation_data_types : List ImplementationDataType := []
  data_type_mappings : List DataTypeMapping := []
  interfaces : List Interface := []
  components : List SoftwareComponent := []
  connections : List PortConnection := []
deriving DecidableEq

/-- The mutable fields of `MultiFileProject`.  The Python `dict`s
`modules` (path → Module) and `module_paths` (name → path) are embedded
as insertion-ordered association lists, matching `dict` iteration order. -/
structure MFPState where
  master : MasterProject
  master_path : Option String := none
  modules : List (String × Module) := []
  module_paths : List (String × String) := []
  merged : Option Project := none
deriving DecidableEq

/-- Python dict assignment: replacing an existing key keeps its
position, a new key is appended. -/
def dictInsert (k : String) (v : α) : List (String × α) → List (String × α)
  | [] => [(k, v)]
  | (k', v') :: rest =>
    if k' = k then (k, v) :: rest else (k', v') :: dictInsert k v rest

/-- Python dict deletion of a key. -/
def dictErase (k : String) : List (String × α) → List (String × α)
  | [] => []
  | (k', v') :: rest =>
    if k' = k then rest else (k', v') :: dictErase k rest

/-- Python dict lookup (also the membership test). -/
def dictFind? (k : String) (l : List (String × α)) : Option α :=
  (l.find? (fun e => e.1 == k)).map (fun e => e.2)

/-- One iteration of the merge loop in `get_merged_project`: extend every
entity list of the accumulator with the module's lists (`list.extend`). -/
def mergeStep (acc : Project) (kv : String × Module) : Project :=
  { acc with
    compu_methods := acc.compu_methods ++ kv.2.compu_methods,
    application_data_types := acc.application_data_types ++ kv.2.application_data_types,
    implementation_data_types :=
      acc.implementation_data_types ++ kv.2.implementation_data_types,
    data_type_mappings := acc.data_type_mappings ++ kv.2.data_type_mappings,
    interfaces := acc.interfaces ++ kv.2.interfaces,
    components := acc.components ++ kv.2.components,
    connections := acc.connections ++ kv.2.connections }

/-- The merge computation inside `get_merged_project` (the cache miss
path): start from the master's name/description, extend every entity
list module by module, then append the master's global connections. -/
def mergeModules (master : MasterProject) (modules : List (String × Module)) : Project :=
  let merged :=
    modules.foldl mergeStep { name := master.name, description := master.description }
  { merged with connections := merged.connections ++ master.global_connections }

/-- Source `MultiFileProject.get_merged_project`: return the memoized merge if
present, otherwise compute it and memoize. -/
def getMergedProject (s : MFPState) : Project × MFPState :=
  match s.merged with
  | some m => (m, s)
  | none =>
    let m := mergeModules s.master s.modules
    (m, { s with merged := some m })

/-- Source `MultiFileProject.invalidate_cache`. -/
def invalidateCache (s : MFPState) : MFPState :=
  { s with merged := none }

/-- Result of opening and YAML-parsing one file: the file may be absent,
unparseable, or a well-formed module document. -/
inductive FileResult
  | missing
  | malformed
  | ok (m : Module)
deriving DecidableEq

/-- An error escaping a load operation (`FileNotFoundError` from `open`,
`yaml.YAMLError` from `safe_load`, ...). -/
inductive LoadError
  | ioError (path : String)
  | yamlError (path : String)
deriving DecidableEq

/-- Source `MultiFileProject.load_module`: open and parse the file (raising on a
missing or malformed file), optionally rename the module (`if name:` —
an empty string is falsy and leaves the name), store it in both dicts
and drop the merge cache.  Raised errors leave the state untouched. -/
def loadModule (fs : String → FileResult) (module_path : String) (name : Option String)
    (s : MFPState) : Except LoadError (Module × MFPState) :=
  match fs module_path with
  | .missing => .error (.ioError module_path)
  | .malformed => .error (.yamlError module_path)
  | .ok m0 =>
    let m := match name with
      | some n => if n ≠ "" then { m0 with name := n } else m0
      | none => m0
    .ok (m, { s with
      modules := dictInsert module_path m s.modules,
      module_paths := dictInsert m.name module_path s.module_paths,
      merged := none })

/-- Everything before the last `'/'` of the character list, `none` when
no `'/'` occurs. -/
def parentDirChars : List Char → Option (List Char)
  | [] => none
  | c :: rest =>
    match parentDirChars rest with
    | some t => some (c :: t)
    | none => if c = '/' then some [] else none

/-- Python `master_path.parent`, for strings of the form `dir/file`. -/
def parentDir (p : String) : String :=
  match parentDirChars p.data with
  | some t => ⟨t⟩
  | none => ""

/-- The module loop of `load_master`: walk the references in order; a
disabled reference is skipped; a missing file of an enabled reference
produces a warning and the loop continues; an exception from
`load_module` (malformed file) propagates, abandoning the rest of the
loop with the state accumulated so far. -/
def loadMasterLoop (fs : String → FileResult) (base_dir : String) :
    List ModuleReference → MFPState → List String →
    Except LoadError Unit × MFPState × List String
  | [], s, warnings => (.ok (), s, warnings)
  | r :: rest, s, warnings =>
    if r.enabled then
      let mod_path := base_dir ++ "/" ++ r.path
      if fs mod_path = FileResult.missing then
        loadMasterLoop fs base_dir rest s
          (warnings ++ ["Warning: Module not found: " ++ mod_path])
      else
        match loadModule fs mod_path (some r.name) s with
        | .ok (_, s') => loadMasterLoop fs base_dir rest s' warnings
        | .error e => (.error e, s, warnings)
    else
      loadMasterLoop fs base_dir rest s warnings

/-- Source `MultiFileProject.load_master`: install the (already parsed) master
document, reset both module dicts, run the module loop, and — only if the
loop completes — clear the merge cache.  When `load_module` raises, the
exception propagates before the final `self._merged = None` line runs. -/
def loadMaster (fs : String → FileResult) (masterDoc : MasterProject)
    (master_path : String) (s : MFPState) :
    Except LoadError Unit × MFPState × List String :=
  let s1 := { s with master := masterDoc, master_path := some master_path,
                     modules := [], module_paths := [] }
  match loadMasterLoop fs (parentDir master_path) masterDoc.modules s1 [] with
  | (.ok _, s2, ws) => (.ok (), { s2 with merged := none }, ws)
  | (.error e, s2, ws) => (.error e, s2, ws)

/-- Source `MultiFileProject.add_module` (the file write itself is an external
effect and is not modelled): raise unless a master path is set, append a
reference to the master, store the module under its absolute path and
drop the merge cache. -/
def addModule (module : Module) (relative_path : String) (s : MFPState) :
    Except String MFPState :=
  match s.master_path with
  | none => .error "Save master project first"
  | some mp =>
    let mod_ref : ModuleReference :=
      { path := relative_path, name := module.name, description := module.description }
    let abs_path := parentDir mp ++ "/" ++ relative_path
    .ok { s with
      master := { s.master with modules := s.master.modules ++ [mod_ref] },
      modules := dictInsert abs_path module s.modules,
      module_paths := dictInsert module.name abs_path s.module_paths,
      merged := none }

/-- Source `MultiFileProject.remove_module` (file deletion not modelled):
filter the reference out of the master, drop the module from both dicts
when it is loaded, and drop the merge cache. -/
def removeModule (module_name : String) (s : MFPState) : MFPState :=
  let s1 := { s with master :=
    { s.master with modules := s.master.modules.filter (fun m => m.name ≠ module_name) } }
  let s2 :=
    match dictFind? module_name s1.module_paths with
    | some path =>
      { s1 with modules := dictErase path s1.modules,
                module_paths := dictErase module_name s1.module_paths }
    | none => s1
  { s2 with merged := none }

/-- Modelled from the spec: no function under `src/` toggles a module
reference's `enabled` flag (the spec's "toggle enabled" mutation); it can
only be the plain field mutation on the master's reference list, which is
what this definition performs.  Nothing in the source invalidates the
cache for it. -/
def toggleModuleEnabled (module_name : String) (s : MFPState) : MFPState :=
  { s with master := { s.master with modules := s.master.modules.map fun m =>
      if m.name = module_name then { m with enabled := !m.enabled } else m } }

/-! ## Code generation type table (src/codegen/generator.py) -/

/-- The literal dictionary `C_TYPE_MAP` from the source, as an
association list in declaration order. -/
def C_TYPE_MAP : List (String × String) :=
  [("uint8", "uint8"), ("uint16", "uint16"), ("uint32", "uint32"),
   ("int8", "int8"), ("int16", "int16"), ("int32", "int32"),
   ("float32", "float32"), ("float64", "float64"), ("boolean", "boolean")]

/-- Source `c_type_filter`: dictionary get with fallback `"uint8"`. -/
def c_type_filter (data_type : String) : String :=
  (dictFind? data_type C_TYPE_MAP).getD "uint8"

/-! ## Cascading delete (src/gui/main_window.py, `_delete_item`, swc branch) -/

/-- Python `list.remove(a)`: drop the first element equal to `a`. -/
def removeFirst [DecidableEq α] (a : α) : List α → List α
  | [] => []
  | x :: xs => if x = a then xs else x :: removeFirst a xs

/-- The `item_type == "swc"` branch of `MainWindow._delete_item`: filter
out every connection whose provider or requester port uid is one of the
component's port uids, then remove the component itself. -/
def deleteSwc (p : Project) (obj : SoftwareComponent) : Project :=
  let ports_to_remove := obj.ports.map (fun port => port.uid)
  { p with
    connections := p.connections.filter (fun c =>
      !(ports_to_remove.contains c.provider_port_uid) &&
      !(ports_to_remove.contains c.requester_port_uid)),
    components := removeFirst obj p.components }

/-! ## Spec-side definitions

The following definitions transcribe the *specification's* wording (spec.md
§4.2, §4.3, §4.4) so that the code-derived definitions above can be compared
against them. -/

/-- The spec's abstract failure reasons for connection validation
(spec.md §4.2), plus `valid` for success. -/
inductive ConnReason
  | componentNotFound
  | portNotFound
  | wrongDirection
  | interfaceMismatch
  | duplicateConnection
  | valid
deriving DecidableEq

/-- Classify the reason string returned by `validate_connection` into the
spec's abstract reason. -/
def classifyReason (s : String) : ConnReason :=
  if s = "Provider SWC not found" then .componentNotFound
  else if s = "Requester SWC not found" then .componentNotFound
  else if s = "Provider port not found" then .portNotFound
  else if s = "Requester port not found" then .portNotFound
  else if s = "Provider port must have \x27provided\x27 direction" then .wrongDirection
  else if s = "Requester port must have \x27required\x27 direction" then .wrongDirection
  else if s = "Ports must share the same interface" then .interfaceMismatch
  else if s = "Connection already exists" then .duplicateConnection
  else .valid

/-- Spec wording: the first violated rule, checked in the order
component-not-found, port-not-found, wrong-direction, interface-mismatch,
duplicate-connection; `valid` when all six checks pass. -/
def specFirstViolation (p : Project) (pswc ppu rswc rpu : String) : ConnReason :=
  match p.get_component_by_uid pswc, p.get_component_by_uid rswc with
  | none, _ => .componentNotFound
  | some _, none => .componentNotFound
  | some ps, some rs =>
    match ps.get_port_by_uid ppu, rs.get_port_by_uid rpu with
    | none, _ => .portNotFound
    | some _, none => .portNotFound
    | some pp, some rp =>
      if pp.direction ≠ PortDirection.provided ∨ rp.direction ≠ PortDirection.required then
        .wrongDirection
      else if pp.interface_uid ≠ rp.interface_uid then .interfaceMismatch
      else if p.connections.any (fun c =>
          c.provider_port_uid == ppu && c.requester_port_uid == rpu) then
        .duplicateConnection
      else .valid

/-- Spec wording: all six checks of §4.2 hold. -/
def connectionChecks (p : Project) (pswc ppu rswc rpu : String) : Prop :=
  ∃ ps rs pp rp,
    p.get_component_by_uid pswc = some ps ∧
    p.get_component_by_uid rswc = some rs ∧
    ps.get_port_by_uid ppu = some pp ∧
    rs.get_port_by_uid rpu = some rp ∧
    pp.direction = PortDirection.provided ∧
    rp.direction = PortDirection.required ∧
    pp.interface_uid = rp.interface_uid ∧
    ∀ c ∈ p.connections, ¬(c.provider_port_uid = ppu ∧ c.requester_port_uid = rpu)

/-- The merge cache is consistent: if a merged project is memoized, it is
the merge of the current master and modules. -/
def cacheConsistent (s : MFPState) : Prop :=
  ∀ m, s.merged = some m → m = mergeModules s.master s.modules

/-- The nine base-type tags that actually appear as keys of `C_TYPE_MAP`. -/
def cTypeTableTags : List String :=
  ["uint8", "uint16", "uint32", "int8", "int16", "int32",
   "float32", "float64", "boolean"]

/-- A connection touches one of the component's ports. -/
def touchesComponentPorts (a : SoftwareComponent) (c : PortConnection) : Prop :=
  c.provider_port_uid ∈ a.ports.map (fun port => port.uid) ∨
  c.requester_port_uid ∈ a.ports.map (fun port => port.uid)

instance (a : SoftwareComponent) (c : PortConnection) :
    Decidable (touchesComponentPorts a c) := by
  unfold touchesComponentPorts; infer_instance

/-! ## Concrete sample data (used by counterexamples and witnesses) -/

def portP1 : Port := { name := "P1", direction := .provided, uid := "p1" }

def portP2 : Port := { name := "P2", direction := .required, uid := "p2" }

def compC1 : SoftwareComponent := { name := "C1", ports := [portP1], uid := "c1" }

def compC2 : SoftwareComponent := { name := "C2", ports := [portP2], uid := "c2" }

/-- Two resolvable components whose ports carry no interface reference. -/
def projNoIf : Project := { name := "NoIf", components := [compC1, compC2] }

def portQ1 : Port := { name := "Q1", direction := .provided, interface_uid := some "I", uid := "q1" }

def compD1 : SoftwareComponent := { name := "D1", ports := [portQ1], uid := "d1" }

/-- Provider port with an interface reference, requester port without. -/
def projMixedIf : Project := { name := "MixedIf", components := [compD1, compC2] }

def conn12 : PortConnection :=
  { name := "K", provider_swc_uid := "c1", provider_port_uid := "p1",
    requester_swc_uid := "c2", requester_port_uid := "p2", uid := "k1" }

/-- A project holding one connection between `compC1` and `compC2`. -/
def proj10 : Project :=
  { name := "Del", components := [compC1, compC2], connections := [conn12] }

def idtA : ImplementationDataType := { name := "IA", uid := "ia" }

def idtB : ImplementationDataType := { name := "IB", uid := "ib" }

def mapp1 : DataTypeMapping := { app_type_uid := "at", impl_type_uid := "ia", uid := "m1" }

def mapp2 : DataTypeMapping := { app_type_uid := "at", impl_type_uid := "ib", uid := "m2" }

/-- Two mappings targeting the same application type `"at"`. -/
def proj7 : Project :=
  { name := "Map", implementation_data_types := [idtA, idtB],
    data_type_mappings := [mapp1, mapp2] }

/-- Old master of the cache counterexample. -/
def master0 : MasterProject := { name := "A" }

/-- The merged view memoized before the failing reload. -/
def mergedOld : Project := mergeModules master0 []

/-- State holding a consistent memoized merge for `master0`. -/
def s0 : MFPState :=
  { master := master0, master_path := some "/proj/master.yaml", merged := some mergedOld }

/-- New master document: one enabled module reference. -/
def masterB : MasterProject :=
  { name := "B", modules := [{ path := "m1.yaml", name := "M1" }] }

/-- File system of the cache counterexample: the referenced module file
exists but is malformed. -/
def fs5 : String → FileResult :=
  fun p => if p = "/proj/m1.yaml" then .malformed else .missing

def refBad : ModuleReference := { path := "bad.yaml", name := "Bad" }

def refGood : ModuleReference := { path := "good.yaml", name := "Good" }

/-- Master referencing a malformed module before a loadable one. -/
def master9 : MasterProject := { name := "M", modules := [refBad, refGood] }

def mod9 : Module := { name := "G" }

/-- File system of the load counterexample: `bad.yaml` is malformed,
`good.yaml` parses. -/
def fs9 : String → FileResult :=
  fun p =>
    if p = "/proj/bad.yaml" then .malformed
    else if p = "/proj/good.yaml" then .ok mod9
    else .missing

/-- A fresh `MultiFileProject` state (`MultiFileProject.__init__`). -/
def sEmpty : MFPState := { master := {} }

def refAbsent : ModuleReference := { path := "absent.yaml", name := "Absent" }

/-- Master referencing a missing module before a loadable one. -/
def masterW : MasterProject := { name := "W", modules := [refAbsent, refGood] }

/-- File system with `good.yaml` parseable and everything else missing. -/
def fsW : String → FileResult :=
  fun p => if p = "/proj/good.yaml" then .ok mod9 else .missing

/-- The state produced by loading `good.yaml` into a fresh project. -/
def sW1 : MFPState :=
  { master := {}, modules := [("/proj/good.yaml", mod9)],
    module_paths := [("G", "/proj/good.yaml")], merged := none }

/-! ## Helper lemmas: enum tag round trips -/

theorem portDirection_tag_round (d : PortDirection) :
    PortDirection.ofTag? d.value = some d := by cases d <;> rfl

theorem interfaceType_tag_round (t : InterfaceType) :
    InterfaceType.ofTag? t.value = some t := by cases t <;> rfl

theorem baseDataType_tag_round (b : BaseDataType) :
    BaseDataType.ofTag? b.value = some b := by cases b <;> rfl

theorem appDataCategory_tag_round (c : AppDataCategory) :
    AppDataCategory.ofTag? c.tag = some c := by cases c <;> rfl

theorem argumentDirection_tag_round (d : ArgumentDirection) :
    ArgumentDirection.ofTag? d.value = some d := by cases d <;> rfl

/-! ## Helper lemmas: decoding -/

theorem exceptMap_map {α β : Type} (f : α → β) (g : β → Except SchemaError α)
    (h : ∀ x, g (f x) = Except.ok x) :
    ∀ l : List α, exceptMap g (l.map f) = Except.ok l
  | [] => rfl
  | a :: l => by
    simp only [List.map_cons, exceptMap, h a, exceptMap_map f g h l]
    rfl

theorem from_to_compu (x : CompuMethod) :
    CompuMethod.from_dict x.to_dict = Except.ok x := rfl

theorem from_to_mapping (x : DataTypeMapping) :
    DataTypeMapping.from_dict x.to_dict = Except.ok x := rfl

theorem from_to_connection (x : PortConnection) :
    PortConnection.from_dict x.to_dict = Except.ok x := rfl

theorem from_to_runnable (x : Runnable) :
    Runnable.from_dict x.to_dict = Except.ok x := rfl

theorem from_to_data_element (x : DataElement) :
    DataElement.from_dict x.to_dict = Except.ok x := by
  cases x with
  | mk name app bt iv ds uid => cases bt <;> rfl

theorem from_to_argument (x : OperationArgument) :
    OperationArgument.from_dict x.to_dict = Except.ok x := by
  cases x with
  | mk name dir app bt ds uid => cases dir <;> cases bt <;> rfl

theorem from_to_port (x : Port) :
    Port.from_dict x.to_dict = Except.ok x := by
  cases x with
  | mk name dir iu ds uid => cases dir <;> rfl

theorem from_to_operation (x : Operation) :
    Operation.from_dict x.to_dict = Except.ok x := by
  have h := exceptMap_map OperationArgument.to_dict OperationArgument.from_dict
    from_to_argument x.arguments
  simp only [Operation.from_dict, Operation.to_dict, Option.getD_some, h,
    requireKey, parseTag, baseDataType_tag_round]
  rfl

theorem from_to_interface (x : Interface) :
    Interface.from_dict x.to_dict = Except.ok x := by
  have h1 := exceptMap_map DataElement.to_dict DataElement.from_dict
    from_to_data_element x.data_elements
  have h2 := exceptMap_map Operation.to_dict Operation.from_dict
    from_to_operation x.operations
  simp only [Interface.from_dict, Interface.to_dict, Option.getD_some, h1, h2,
    requireKey, parseTag, interfaceType_tag_round]
  rfl

theorem from_to_swc (x : SoftwareComponent) :
    SoftwareComponent.from_dict x.to_dict = Except.ok x := by
  have h1 := exceptMap_map Port.to_dict Port.from_dict from_to_port x.ports
  have h2 := exceptMap_map Runnable.to_dict Runnable.from_dict
    from_to_runnable x.runnables
  simp only [SoftwareComponent.from_dict, SoftwareComponent.to_dict,
    Option.getD_some, h1, h2, requireKey]
  rfl

theorem from_to_app_type (x : ApplicationDataType) :
    ApplicationDataType.from_dict x.to_dict = Except.ok x := by
  have h1 := exceptMap_map (fun m => (⟨some m.1, some m.2⟩ : StructMemberDoc))
    StructMemberDoc.decode (fun m => by rfl) x.struct_members
  have h2 := exceptMap_map (fun e => (⟨some e.1, some e.2⟩ : EnumLiteralDoc))
    EnumLiteralDoc.decode (fun e => by rfl) x.enum_literals
  simp only [ApplicationDataType.from_dict, ApplicationDataType.to_dict,
    Option.getD_some, h1, h2, requireKey, parseTag, appDataCategory_tag_round]
  rfl

theorem from_to_impl_type (x : ImplementationDataType) :
    ImplementationDataType.from_dict x.to_dict = Except.ok x := by
  have h1 := exceptMap_map (fun m => (⟨some m.1, some m.2⟩ : ImplMemberDoc))
    ImplMemberDoc.decode (fun m => by rfl) x.struct_members
  simp only [ImplementationDataType.from_dict, ImplementationDataType.to_dict,
    Option.getD_some, h1, requireKey, parseTag, baseDataType_tag_round]
  rfl

/-- C3: for every `Project` `p`, `from_dict (to_dict p)` decodes successfully
to a project structurally equal to `p` — same name and description, every
entity list in the same order with all nested lists (data elements,
operations, arguments, struct members, enum literals, ports, runnables)
in declared order, and every field value including every UID preserved. -/
theorem project_round_trip (p : Project) :
    Project.from_dict p.to_dict = Except.ok p := by
  have h1 := exceptMap_map CompuMethod.to_dict CompuMethod.from_dict
    from_to_compu p.compu_methods
  have h2 := exceptMap_map ApplicationDataType.to_dict ApplicationDataType.from_dict
    from_to_app_type p.application_data_types
  have h3 := exceptMap_map ImplementationDataType.to_dict ImplementationDataType.from_dict
    from_to_impl_type p.implementation_data_types
  have h4 := exceptMap_map DataTypeMapping.to_dict DataTypeMapping.from_dict
    from_to_mapping p.data_type_mappings
  have h5 := exceptMap_map Interface.to_dict Interface.from_dict
    from_to_interface p.interfaces
  have h6 := exceptMap_map SoftwareComponent.to_dict SoftwareComponent.from_dict
    from_to_swc p.components
  have h7 := exceptMap_map PortConnection.to_dict PortConnection.from_dict
    from_to_connection p.connections
  simp only [Project.from_dict, Project.to_dict, Option.getD_some,
    h1, h2, h3, h4, h5, h6, h7]
  rfl

/-! ## C1: connection validation -/

/-- C1: `validate_connection` succeeds exactly when all six checks pass
(both components resolve, both ports resolve on their components, the
provider port is provided, the requester port is required, both ports
reference the same interface, and no existing connection has the same
(provider_port, requester_port) pair), and the returned reason is that of
the first violated rule in the order component-not-found, port-not-found,
wrong-direction, interface-mismatch, duplicate-connection. -/
theorem validate_connection_spec (p : Project) (a b c d : String) :
    ((p.validate_connection a b c d).1 = true ↔ connectionChecks p a b c d) ∧
    classifyReason (p.validate_connection a b c d).2 = specFirstViolation p a b c d := by
  cases h1 : p.get_component_by_uid a with
  | none =>
    simp [Project.validate_connection, specFirstViolation, connectionChecks,
      classifyReason, h1]
  | some ps =>
    cases h2 : p.get_component_by_uid c with
    | none =>
      simp [Project.validate_connection, specFirstViolation, connectionChecks,
        classifyReason, h1, h2]
    | some rs =>
      cases h3 : ps.get_port_by_uid b with
      | none =>
        simp [Project.validate_connection, specFirstViolation, connectionChecks,
          classifyReason, h1, h2, h3]
      | some pp =>
        cases h4 : rs.get_port_by_uid d with
        | none =>
          simp [Project.validate_connection, specFirstViolation, connectionChecks,
            classifyReason, h1, h2, h3, h4]
        | some rp =>
          by_cases hdp : pp.direction = PortDirection.provided
          · by_cases hdr : rp.direction = PortDirection.required
            · by_cases hi : pp.interface_uid = rp.interface_uid
              · cases hA : p.connections.any (fun conn =>
                    conn.provider_port_uid == b && conn.requester_port_uid == d) with
                | true =>
                  obtain ⟨x, hx, hxb⟩ := List.any_eq_true.mp hA
                  rw [Bool.and_eq_true, beq_iff_eq, beq_iff_eq] at hxb
                  constructor
                  · simp [Project.validate_connection, connectionChecks,
                      h1, h2, h3, h4, hdp, hdr, hi, hA]
                    exact ⟨x, hx, hxb.1, hxb.2⟩
                  · simp [Project.validate_connection, specFirstViolation,
                      classifyReason, h1, h2, h3, h4, hdp, hdr, hi, hA]
                | false =>
                  have hall : ∀ x ∈ p.connections,
                      ¬(x.provider_port_uid = b ∧ x.requester_port_uid = d) := by
                    intro x hx hcontra
                    have := List.any_eq_false.mp hA x hx
                    rw [Bool.and_eq_true, beq_iff_eq, beq_iff_eq] at this
                    exact this ⟨hcontra.1, hcontra.2⟩
                  constructor
                  · simp [Project.validate_connection, connectionChecks,
                      h1, h2, h3, h4, hdp, hdr, hi, hA]
                    exact fun conn hc hpb hrd => hall conn hc ⟨hpb, hrd⟩
                  · simp [Project.validate_connection, specFirstViolation,
                      classifyReason, h1, h2, h3, h4, hdp, hdr, hi, hA]
              · constructor
                · simp [Project.validate_connection, connectionChecks,
                    h1, h2, h3, h4, hdp, hdr, hi]
                · simp [Project.validate_connection, specFirstViolation,
                    classifyReason, h1, h2, h3, h4, hdp, hdr, hi]
            · constructor
              · simp [Project.validate_connection, connectionChecks,
                  h1, h2, h3, h4, hdp, hdr]
              · simp [Project.validate_connection, specFirstViolation,
                  classifyReason, h1, h2, h3, h4, hdp, hdr]
          · constructor
            · simp [Project.validate_connection, connectionChecks,
                h1, h2, h3, h4, hdp]
            · simp [Project.validate_connection, specFirstViolation,
                classifyReason, h1, h2, h3, h4, hdp]

/-! ## C4: base type table -/

theorem dictFind?_eq_none_of_not_mem {α : Type} (s : String) :
    ∀ l : List (String × α), s ∉ l.map Prod.fst → dictFind? s l = none
  | [], _ => rfl
  | (k, v) :: rest, h => by
    simp only [List.map_cons, List.mem_cons, not_or] at h
    have hk : (k == s) = false := beq_eq_false_iff_ne.mpr (Ne.symm h.1)
    simp only [dictFind?, List.find?_cons, hk]
    exact dictFind?_eq_none_of_not_mem s rest h.2

/-- C4 counterexample: `uint64` and `int64` are valid base-type tags of the
model, yet `c_type_filter` maps them to the fallback `uint8` instead of
themselves, so the table is not 1:1 over all eleven fixed-width tags. -/
theorem c_type_filter_64bit_cex :
    BaseDataType.ofTag? "uint64" = some BaseDataType.uint64 ∧
    BaseDataType.ofTag? "int64" = some BaseDataType.int64 ∧
    c_type_filter "uint64" = "uint8" ∧
    c_type_filter "int64" = "uint8" ∧
    ("uint64" : String) ≠ "uint8" ∧ ("int64" : String) ≠ "uint8" := by decide

/-- C4 (amended): the generator's table is 1:1 over the nine tags it
actually lists — uint8, uint16, uint32, int8, int16, int32, float32,
float64, boolean — and every other string, including the 64-bit tags
uint64 and int64, falls back to `uint8` rather than failing. -/
theorem c_type_closed_table (s : String) :
    (s ∈ cTypeTableTags → c_type_filter s = s) ∧
    (s ∉ cTypeTableTags → c_type_filter s = "uint8") := by
  constructor
  · intro hs
    fin_cases hs <;> rfl
  · intro hs
    have hm : s ∉ C_TYPE_MAP.map Prod.fst := by
      simpa [C_TYPE_MAP, cTypeTableTags] using hs
    simp [c_type_filter, dictFind?_eq_none_of_not_mem s _ hm]

/-- C4 witness: the amended theorem applied at `"int32"` (in the table)
and `"uint64"` (outside it). -/
theorem c_type_closed_table_witness :
    c_type_filter "int32" = "int32" ∧ c_type_filter "uint64" = "uint8" :=
  ⟨(c_type_closed_table "int32").1 (by decide), (c_type_closed_table "uint64").2 (by decide)⟩

/-! ## C6: ports without interface references -/

/-- C6 counterexample: both components and ports resolve, directions are
correct, no connection exists, both ports have `interface_uid = None` —
and `validate_connection` nevertheless succeeds (`None == None` passes the
interface-identity check), contradicting the claim that a port with no
interface reference cannot be connected. -/
theorem connect_no_interface_succeeds :
    portP1.interface_uid = none ∧ portP2.interface_uid = none ∧
    projNoIf.get_component_by_uid "c1" = some compC1 ∧
    compC1.get_port_by_uid "p1" = some portP1 ∧
    projNoIf.get_component_by_uid "c2" = some compC2 ∧
    compC2.get_port_by_uid "p2" = some portP2 ∧
    projNoIf.connections = [] ∧
    projNoIf.validate_connection "c1" "p1" "c2" "p2" = (true, "Valid") := by decide

/-- C6 (amended): a port lacking an interface reference cannot be
connected to a port that has one: whenever exactly one of the two
resolved ports has `interface_uid = None`, `validate_connection` fails.
(When both ports lack a reference the interface-identity check compares
`None` with `None` and validation can succeed, as the counterexample
shows.) -/
theorem mixed_interface_fails (p : Project) (a b c d : String)
    (ps rs : SoftwareComponent) (pp rp : Port)
    (h1 : p.get_component_by_uid a = some ps)
    (h2 : p.get_component_by_uid c = some rs)
    (h3 : ps.get_port_by_uid b = some pp)
    (h4 : rs.get_port_by_uid d = some rp)
    (h5 : (pp.interface_uid = none ∧ rp.interface_uid ≠ none) ∨
          (pp.interface_uid ≠ none ∧ rp.interface_uid = none)) :
    (p.validate_connection a b c d).1 = false := by
  have hne : pp.interface_uid ≠ rp.interface_uid := by
    rcases h5 with ⟨h5a, h5b⟩ | ⟨h5a, h5b⟩
    · intro h
      rw [h5a] at h
      exact h5b h.symm
    · intro h
      rw [h5b] at h
      exact h5a h
  simp only [Project.validate_connection, h1, h2, h3, h4]
  split_ifs <;> simp_all

/-- C6 witness: the amended theorem at a concrete project whose provider
port references interface `"I"` while the requester port references
nothing. -/
theorem mixed_interface_fails_witness :
    (projMixedIf.validate_connection "d1" "q1" "c2" "p2").1 = false :=
  mixed_interface_fails projMixedIf "d1" "q1" "c2" "p2" compD1 compC2 portQ1 portP2
    rfl rfl rfl rfl (Or.inr ⟨by decide, rfl⟩)

/-! ## C7: first mapping wins -/

theorem findMappedImplType_eq (p : Project) (u : String) :
    ∀ l : List DataTypeMapping,
      findMappedImplType p u l =
        (l.find? (fun m => m.app_type_uid == u)).bind
          (fun m => p.get_impl_type_by_uid m.impl_type_uid)
  | [] => rfl
  | m :: rest => by
    cases h : (m.app_type_uid == u) with
    | true =>
      simp [findMappedImplType, h, List.find?_cons_of_pos _ h]
    | false =>
      simp [findMappedImplType, h, List.find?_cons_of_neg,
        findMappedImplType_eq p u rest]

/-- C7: `get_impl_type_for_app_type u` is decided by the first mapping in
list order whose `app_type_uid` equals `u` — it returns the lookup of that
mapping's `impl_type_uid`, ignoring later mappings for the same `u` — and
returns `None` when no mapping matches. -/
theorem first_mapping_wins (p : Project) (u : String) :
    p.get_impl_type_for_app_type u =
      (p.data_type_mappings.find? (fun m => m.app_type_uid == u)).bind
        (fun m => p.get_impl_type_by_uid m.impl_type_uid) ∧
    ((∀ m ∈ p.data_type_mappings, m.app_type_uid ≠ u) →
      p.get_impl_type_for_app_type u = none) := by
  constructor
  · exact findMappedImplType_eq p u p.data_type_mappings
  · intro h
    rw [Project.get_impl_type_for_app_type, findMappedImplType_eq p u]
    rw [List.find?_eq_none.mpr (fun m hm => by simpa using h m hm)]
    rfl

/-- C7 witness: in `proj7` two mappings target `"at"`; the first one
(pointing at `idtA`) wins, and an unmapped uid yields `None`. -/
theorem first_mapping_wins_witness :
    proj7.get_impl_type_for_app_type "zz" = none ∧
    proj7.get_impl_type_for_app_type "at" =
      (proj7.data_type_mappings.find? (fun m => m.app_type_uid == "at")).bind
        (fun m => proj7.get_impl_type_by_uid m.impl_type_uid) :=
  ⟨(first_mapping_wins proj7 "zz").2 (by decide), (first_mapping_wins proj7 "at").1⟩

/-! ## C10: cascading delete of a component -/

theorem removeFirst_append {α : Type} [DecidableEq α] (a : α) (l1 l2 : List α)
    (h : a ∉ l1) : removeFirst a (l1 ++ a :: l2) = l1 ++ l2 := by
  induction l1 with
  | nil => simp [removeFirst]
  | cons x xs ih =>
    simp only [List.mem_cons, not_or] at h
    simp only [List.cons_append, removeFirst, if_neg (Ne.symm h.1)]
    exact congrArg (fun t => x :: t) (ih h.2)

/-- C10: deleting component `a` removes exactly `a` and every connection
whose provider or requester port uid belongs to one of `a`'s ports:
all other entity lists are untouched, the surviving connections are
exactly those not touching `a`'s ports, in their original order, and the
component list loses exactly the (first) occurrence of `a`. -/
theorem delete_swc_cascades (p : Project) (a : SoftwareComponent) :
    (deleteSwc p a).name = p.name ∧
    (deleteSwc p a).description = p.description ∧
    (deleteSwc p a).compu_methods = p.compu_methods ∧
    (deleteSwc p a).application_data_types = p.application_data_types ∧
    (deleteSwc p a).implementation_data_types = p.implementation_data_types ∧
    (deleteSwc p a).data_type_mappings = p.data_type_mappings ∧
    (deleteSwc p a).interfaces = p.interfaces ∧
    (∀ conn, conn ∈ (deleteSwc p a).connections ↔
      conn ∈ p.connections ∧ ¬touchesComponentPorts a conn) ∧
    (deleteSwc p a).connections.Sublist p.connections ∧
    (∀ l1 l2, p.components = l1 ++ a :: l2 → a ∉ l1 →
      (deleteSwc p a).components = l1 ++ l2) := by
  refine ⟨rfl, rfl, rfl, rfl, rfl, rfl, rfl, ?_, ?_, ?_⟩
  · intro conn
    simp [deleteSwc, List.mem_filter, touchesComponentPorts]
  · exact List.filter_sublist _
  · intro l1 l2 hsplit hnot
    simp only [deleteSwc, hsplit]
    exact removeFirst_append a l1 l2 hnot

/-- C10 witness: deleting `compC1` from `proj10` removes the connection
`conn12` (it touches port `p1`) and leaves `[compC2]`. -/
theorem delete_swc_cascades_witness :
    (deleteSwc proj10 compC1).components = [compC2] ∧
    (conn12 ∈ (deleteSwc proj10 compC1).connections ↔
      conn12 ∈ proj10.connections ∧ ¬touchesComponentPorts compC1 conn12) :=
  ⟨(delete_swc_cascades proj10 compC1).2.2.2.2.2.2.2.2.2 [] [compC2] rfl
      (by simp),
    (delete_swc_cascades proj10 compC1).2.2.2.2.2.2.2.1 conn12⟩

/-! ## C2: merged project concatenation -/

theorem mergeFold_fields (mods : List (String × Module)) (acc : Project) :
    (mods.foldl mergeStep acc).name = acc.name ∧
    (mods.foldl mergeStep acc).description = acc.description ∧
    (mods.foldl mergeStep acc).compu_methods =
      acc.compu_methods ++ (mods.map fun kv => kv.2.compu_methods).flatten ∧
    (mods.foldl mergeStep acc).application_data_types =
      acc.application_data_types ++ (mods.map fun kv => kv.2.application_data_types).flatten ∧
    (mods.foldl mergeStep acc).implementation_data_types =
      acc.implementation_data_types ++
        (mods.map fun kv => kv.2.implementation_data_types).flatten ∧
    (mods.foldl mergeStep acc).data_type_mappings =
      acc.data_type_mappings ++ (mods.map fun kv => kv.2.data_type_mappings).flatten ∧
    (mods.foldl mergeStep acc).interfaces =
      acc.interfaces ++ (mods.map fun kv => kv.2.interfaces).flatten ∧
    (mods.foldl mergeStep acc).components =
      acc.components ++ (mods.map fun kv => kv.2.components).flatten ∧
    (mods.foldl mergeStep acc).connections =
      acc.connections ++ (mods.map fun kv => kv.2.connections).flatten := by
  induction mods generalizing acc with
  | nil => simp
  | cons kv rest ih =>
    obtain ⟨e1, e2, e3, e4, e5, e6, e7, e8, e9⟩ := ih (mergeStep acc kv)
    simp only [List.foldl_cons, List.map_cons, List.flatten_cons]
    exact ⟨e1, e2,
      by rw [e3]; simp [mergeStep, List.append_assoc],
      by rw [e4]; simp [mergeStep, List.append_assoc],
      by rw [e5]; simp [mergeStep, List.append_assoc],
      by rw [e6]; simp [mergeStep, List.append_assoc],
      by rw [e7]; simp [mergeStep, List.append_assoc],
      by rw [e8]; simp [mergeStep, List.append_assoc],
      by rw [e9]; simp [mergeStep, List.append_assoc]⟩

/-- C2: the merged project takes its name and description from the
master, each entity list is the concatenation of the modules' lists in
module-list order (each list's internal order preserved, no
deduplication), and the connection list is the concatenation of all
module connections followed by the master's global connections, which
therefore come last. -/
theorem merged_project_concatenates (master : MasterProject)
    (mods : List (String × Module)) :
    (mergeModules master mods).name = master.name ∧
    (mergeModules master mods).description = master.description ∧
    (mergeModules master mods).compu_methods =
      (mods.map fun kv => kv.2.compu_methods).flatten ∧
    (mergeModules master mods).application_data_types =
      (mods.map fun kv => kv.2.application_data_types).flatten ∧
    (mergeModules master mods).implementation_data_types =
      (mods.map fun kv => kv.2.implementation_data_types).flatten ∧
    (mergeModules master mods).data_type_mappings =
      (mods.map fun kv => kv.2.data_type_mappings).flatten ∧
    (mergeModules master mods).interfaces =
      (mods.map fun kv => kv.2.interfaces).flatten ∧
    (mergeModules master mods).components =
      (mods.map fun kv => kv.2.components).flatten ∧
    (mergeModules master mods).connections =
      (mods.map fun kv => kv.2.connections).flatten ++ master.global_connections := by
  obtain ⟨e1, e2, e3, e4, e5, e6, e7, e8, e9⟩ :=
    mergeFold_fields mods { name := master.name, description := master.description }
  exact ⟨e1, e2, by simpa using e3, by simpa using e4, by simpa using e5,
    by simpa using e6, by simpa using e7, by simpa using e8,
    by simpa [mergeModules] using congrArg (fun l => l ++ master.global_connections) e9⟩

/-! ## C5: merge cache transparency -/

theorem getMergedProject_of_none (s : MFPState) (h : s.merged = none) :
    (getMergedProject s).1 = mergeModules s.master s.modules := by
  simp [getMergedProject, h]

/-- C5 counterexample: starting from a state whose cache is consistent
(`s0` memoizes the merge of its own master), `load_master` on a master
document whose only enabled module file is malformed raises after already
installing the new master and clearing the module dicts; the final
`self._merged = None` line never runs, so the next `get_merged_project`
returns the old memoized project (named "A") although recomputing the
merge from the current master and modules yields a project named "B" —
stale merged state after a structural mutation. -/
theorem stale_cache_after_failed_load_master :
    (loadMaster fs5 masterB "/proj/master.yaml" s0).2.1.master = masterB ∧
    (loadMaster fs5 masterB "/proj/master.yaml" s0).2.1.modules = [] ∧
    (loadMaster fs5 masterB "/proj/master.yaml" s0).1 =
      Except.error (LoadError.yamlError "/proj/m1.yaml") ∧
    (getMergedProject (loadMaster fs5 masterB "/proj/master.yaml" s0).2.1).1 =
      mergedOld ∧
    mergedOld.name = "A" ∧
    (mergeModules (loadMaster fs5 masterB "/proj/master.yaml" s0).2.1.master
      (loadMaster fs5 masterB "/proj/master.yaml" s0).2.1.modules).name = "B" :=
  ⟨rfl, rfl, rfl, rfl, rfl, rfl⟩

/-- C5 (amended): every structural mutation that completes normally —
a successful `load_module`, a successful `load_master`, a successful
`add_module`, `remove_module`, `invalidate_cache` — leaves the cache
empty, so the next `get_merged_project` equals the fresh merge of the
current master and modules; toggling a module reference's enabled flag
does not clear the cache, but the merge does not read the flag, so a
consistent cache still equals the fresh recompute.  (A `load_master`
aborted by a malformed module file can leave a stale cache, as the
counterexample shows.) -/
theorem merge_cache_transparent :
    (∀ fs path nm (s : MFPState) m s', loadModule fs path nm s = .ok (m, s') →
      (getMergedProject s').1 = mergeModules s'.master s'.modules) ∧
    (∀ fs (doc : MasterProject) mp (s : MFPState),
      (loadMaster fs doc mp s).1 = .ok () →
      (getMergedProject (loadMaster fs doc mp s).2.1).1 =
        mergeModules (loadMaster fs doc mp s).2.1.master
          (loadMaster fs doc mp s).2.1.modules) ∧
    (∀ module rel (s : MFPState) s', addModule module rel s = .ok s' →
      (getMergedProject s').1 = mergeModules s'.master s'.modules) ∧
    (∀ n (s : MFPState), (getMergedProject (removeModule n s)).1 =
      mergeModules (removeModule n s).master (removeModule n s).modules) ∧
    (∀ s : MFPState, (getMergedProject (invalidateCache s)).1 =
      mergeModules (invalidateCache s).master (invalidateCache s).modules) ∧
    (∀ n (s : MFPState), cacheConsistent s →
      (getMergedProject (toggleModuleEnabled n s)).1 =
        mergeModules (toggleModuleEnabled n s).master
          (toggleModuleEnabled n s).modules) := by
  refine ⟨?_, ?_, ?_, ?_, ?_, ?_⟩
  · intro fs path nm s m s' h
    cases hf : fs path with
    | missing => simp [loadModule, hf] at h
    | malformed => simp [loadModule, hf] at h
    | ok m0 =>
      simp only [loadModule, hf, Except.ok.injEq, Prod.mk.injEq] at h
      exact h.2 ▸ getMergedProject_of_none _ rfl
  · intro fs doc mp s h
    rcases hLL : loadMasterLoop fs (parentDir mp) doc.modules
        { s with master := doc, master_path := some mp,
                 modules := [], module_paths := [] } [] with ⟨r, s2, ws⟩
    cases r with
    | ok u =>
      simp only [loadMaster, hLL]
      exact getMergedProject_of_none _ rfl
    | error e => simp [loadMaster, hLL] at h
  · intro module rel s s' h
    cases hm : s.master_path with
    | none => simp [addModule, hm] at h
    | some mp =>
      simp only [addModule, hm, Except.ok.injEq] at h
      exact h ▸ getMergedProject_of_none _ rfl
  · intro n s
    exact getMergedProject_of_none _ rfl
  · intro s
    exact getMergedProject_of_none _ rfl
  · intro n s hC
    cases hm : s.merged with
    | none =>
      have : (toggleModuleEnabled n s).merged = none := hm
      rw [getMergedProject_of_none _ this]
    | some m =>
      have h1 : (getMergedProject (toggleModuleEnabled n s)).1 = m := by
        simp [getMergedProject, toggleModuleEnabled, hm]
      rw [h1]
      exact hC m hm

/-- C5 witness: the amended theorem applied to a successful
`load_module`, to `remove_module`, and to an enabled-flag toggle on the
cache-consistent state `s0`. -/
theorem merge_cache_transparent_witness :
    (getMergedProject sW1).1 = mergeModules sW1.master sW1.modules ∧
    (getMergedProject (removeModule "M1" s0)).1 =
      mergeModules (removeModule "M1" s0).master (removeModule "M1" s0).modules ∧
    (getMergedProject (toggleModuleEnabled "M1" s0)).1 =
      mergeModules (toggleModuleEnabled "M1" s0).master
        (toggleModuleEnabled "M1" s0).modules :=
  ⟨merge_cache_transparent.1 fsW "/proj/good.yaml" none sEmpty mod9 sW1 rfl,
   merge_cache_transparent.2.2.2.1 "M1" s0,
   merge_cache_transparent.2.2.2.2.2 "M1" s0
     (fun m h => by
       simp only [s0] at h
       cases h
       rfl)⟩

/-! ## C9: master load, missing vs malformed modules -/

theorem dictFind?_dictInsert {α : Type} (k q : String) (v : α) (l : List (String × α)) :
    dictFind? q (dictInsert k v l) = if k = q then some v else dictFind? q l := by
  induction l with
  | nil =>
    by_cases h : k = q
    · simp [dictInsert, dictFind?, List.find?, h]
    · have hb : (k == q) = false := by simp [h]
      simp [dictInsert, dictFind?, List.find?, h, hb]
  | cons kv rest ih =>
    obtain ⟨k', v'⟩ := kv
    by_cases hk : k' = k
    · subst hk
      by_cases hq : k' = q
      · have hb : (k' == q) = true := by simp [hq]
        simp [dictInsert, dictFind?, List.find?, hq, hb]
      · have hb : (k' == q) = false := by simp [hq]
        simp [dictInsert, dictFind?, List.find?, hq, hb]
    · by_cases hq : k' = q
      · subst hq
        have hkq : ¬k = k' := fun h => hk h.symm
        have hb : (k' == k') = true := by simp
        simp [dictInsert, dictFind?, List.find?, hk, hkq, hb]
      · have hb : (k' == q) = false := by simp [hq]
        simp only [dictInsert, if_neg hk]
        simp only [dictFind?, List.find?, hb] at ih ⊢
        exact ih

theorem loadMasterLoop_warnings_mono (fs : String → FileResult) (bd : String) :
    ∀ (refs : List ModuleReference) (s : MFPState) (ws : List String) (w : String),
      w ∈ ws → w ∈ (loadMasterLoop fs bd refs s ws).2.2
  | [], _, _, _, hw => hw
  | r :: rest, s, ws, w, hw => by
    cases he : r.enabled with
    | false =>
      simp only [loadMasterLoop, he, Bool.false_eq_true, if_false]
      exact loadMasterLoop_warnings_mono fs bd rest s ws w hw
    | true =>
      cases hfs : fs (bd ++ "/" ++ r.path) with
      | missing =>
        simp only [loadMasterLoop, he, if_true, hfs, if_pos rfl]
        exact loadMasterLoop_warnings_mono fs bd rest s _ w
          (List.mem_append_left _ hw)
      | malformed =>
        simp [loadMasterLoop, he, hfs, loadModule]
        exact hw
      | ok m0 =>
        simp only [loadMasterLoop, he, if_true, hfs, loadModule]
        simp only [reduceCtorEq, if_false]
        exact loadMasterLoop_warnings_mono fs bd rest _ ws w hw

theorem loadMasterLoop_ok (fs : String → FileResult) (bd : String) :
    ∀ (refs : List ModuleReference) (s : MFPState) (ws : List String),
      (∀ r ∈ refs, r.enabled = true → fs (bd ++ "/" ++ r.path) ≠ FileResult.malformed) →
      (loadMasterLoop fs bd refs s ws).1 = Except.ok ()
  | [], _, _, _ => rfl
  | r :: rest, s, ws, h => by
    have hrest : ∀ r' ∈ rest, r'.enabled = true →
        fs (bd ++ "/" ++ r'.path) ≠ FileResult.malformed :=
      fun r' hr' => h r' (List.mem_cons_of_mem _ hr')
    cases he : r.enabled with
    | false =>
      simp only [loadMasterLoop, he, Bool.false_eq_true, if_false]
      exact loadMasterLoop_ok fs bd rest s ws hrest
    | true =>
      cases hfs : fs (bd ++ "/" ++ r.path) with
      | missing =>
        simp only [loadMasterLoop, he, if_true, hfs, if_pos rfl]
        exact loadMasterLoop_ok fs bd rest s _ hrest
      | malformed => exact absurd hfs (h r (List.mem_cons_self r rest) he)
      | ok m0 =>
        simp only [loadMasterLoop, he, if_true, hfs, loadModule]
        simp only [reduceCtorEq, if_false]
        exact loadMasterLoop_ok fs bd rest _ ws hrest

theorem loadMasterLoop_missing_absent (fs : String → FileResult) (bd : String) :
    ∀ (refs : List ModuleReference) (s : MFPState) (ws : List String) (q : String),
      fs q = FileResult.missing → dictFind? q s.modules = none →
      dictFind? q ((loadMasterLoop fs bd refs s ws).2.1).modules = none
  | [], _, _, _, _, hs => hs
  | r :: rest, s, ws, q, hq, hs => by
    cases he : r.enabled with
    | false =>
      simp only [loadMasterLoop, he, Bool.false_eq_true, if_false]
      exact loadMasterLoop_missing_absent fs bd rest s ws q hq hs
    | true =>
      cases hfs : fs (bd ++ "/" ++ r.path) with
      | missing =>
        simp only [loadMasterLoop, he, if_true, hfs, if_pos rfl]
        exact loadMasterLoop_missing_absent fs bd rest s _ q hq hs
      | malformed =>
        simp [loadMasterLoop, he, hfs, loadModule]
        exact hs
      | ok m0 =>
        simp only [loadMasterLoop, he, if_true, hfs, loadModule]
        simp only [reduceCtorEq, if_false]
        apply loadMasterLoop_missing_absent fs bd rest _ ws q hq
        have hne : (bd ++ "/" ++ r.path) ≠ q := by
          intro h
          rw [h, hq] at hfs
          cases hfs
        simp [dictFind?_dictInsert, hne, hs]

theorem loadMasterLoop_preserves (fs : String → FileResult) (bd : String) :
    ∀ (refs : List ModuleReference) (s : MFPState) (ws : List String)
      (q : String) (m : Module),
      dictFind? q s.modules = some m →
      ∃ m', dictFind? q ((loadMasterLoop fs bd refs s ws).2.1).modules = some m'
  | [], _, _, _, m, h => ⟨m, h⟩
  | r :: rest, s, ws, q, m, h => by
    cases he : r.enabled with
    | false =>
      simp only [loadMasterLoop, he, Bool.false_eq_true, if_false]
      exact loadMasterLoop_preserves fs bd rest s ws q m h
    | true =>
      cases hfs : fs (bd ++ "/" ++ r.path) with
      | missing =>
        simp only [loadMasterLoop, he, if_true, hfs, if_pos rfl]
        exact loadMasterLoop_preserves fs bd rest s _ q m h
      | malformed =>
        simp [loadMasterLoop, he, hfs, loadModule]
        exact ⟨m, h⟩
      | ok m0 =>
        simp only [loadMasterLoop, he, if_true, hfs, loadModule]
        simp only [reduceCtorEq, if_false]
        by_cases hpq : (bd ++ "/" ++ r.path) = q
        · exact loadMasterLoop_preserves fs bd rest _ ws q
            (if r.name ≠ "" then { m0 with name := r.name } else m0)
            (by simp [dictFind?_dictInsert, hpq])
        · exact loadMasterLoop_preserves fs bd rest _ ws q m
            (by simp [dictFind?_dictInsert, hpq, h])

theorem loadMasterLoop_loads (fs : String → FileResult) (bd : String) :
    ∀ (refs : List ModuleReference) (s : MFPState) (ws : List String)
      (r : ModuleReference) (m : Module),
      r ∈ refs → r.enabled = true →
      fs (bd ++ "/" ++ r.path) = FileResult.ok m →
      (∀ r' ∈ refs, r'.enabled = true →
        fs (bd ++ "/" ++ r'.path) ≠ FileResult.malformed) →
      ∃ m', dictFind? (bd ++ "/" ++ r.path)
        ((loadMasterLoop fs bd refs s ws).2.1).modules = some m'
  | [], _, _, _, _, hmem, _, _, _ => absurd hmem (List.not_mem_nil _)
  | r' :: rest, s, ws, r, m, hmem, he, hfs, hnm => by
    have hrest : ∀ q ∈ rest, q.enabled = true →
        fs (bd ++ "/" ++ q.path) ≠ FileResult.malformed :=
      fun q hq => hnm q (List.mem_cons_of_mem _ hq)
    rcases List.mem_cons.mp hmem with heq | hmem'
    · subst heq
      simp only [loadMasterLoop, he, if_true, hfs, loadModule]
      simp only [reduceCtorEq, if_false]
      exact loadMasterLoop_preserves fs bd rest _ ws _
        (if r.name ≠ "" then { m with name := r.name } else m)
        (by simp [dictFind?_dictInsert])
    · cases he' : r'.enabled with
      | false =>
        simp only [loadMasterLoop, he', Bool.false_eq_true, if_false]
        exact loadMasterLoop_loads fs bd rest s ws r m hmem' he hfs hrest
      | true =>
        cases hfs' : fs (bd ++ "/" ++ r'.path) with
        | missing =>
          simp only [loadMasterLoop, he', if_true, hfs', if_pos rfl]
          exact loadMasterLoop_loads fs bd rest s _ r m hmem' he hfs hrest
        | malformed => exact absurd hfs' (hnm r' (List.mem_cons_self r' rest) he')
        | ok m0 =>
          simp only [loadMasterLoop, he', if_true, hfs', loadModule]
          simp only [reduceCtorEq, if_false]
          exact loadMasterLoop_loads fs bd rest _ ws r m hmem' he hfs hrest

theorem loadMasterLoop_warns (fs : String → FileResult) (bd : String) :
    ∀ (refs : List ModuleReference) (s : MFPState) (ws : List String)
      (r : ModuleReference),
      r ∈ refs → r.enabled = true →
      fs (bd ++ "/" ++ r.path) = FileResult.missing →
      (∀ r' ∈ refs, r'.enabled = true →
        fs (bd ++ "/" ++ r'.path) ≠ FileResult.malformed) →
      ("Warning: Module not found: " ++ (bd ++ "/" ++ r.path)) ∈
        (loadMasterLoop fs bd refs s ws).2.2
  | [], _, _, _, hmem, _, _, _ => absurd hmem (List.not_mem_nil _)
  | r' :: rest, s, ws, r, hmem, he, hfs, hnm => by
    have hrest : ∀ q ∈ rest, q.enabled = true →
        fs (bd ++ "/" ++ q.path) ≠ FileResult.malformed :=
      fun q hq => hnm q (List.mem_cons_of_mem _ hq)
    rcases List.mem_cons.mp hmem with heq | hmem'
    · subst heq
      simp only [loadMasterLoop, he, if_true, hfs, if_pos rfl]
      exact loadMasterLoop_warnings_mono fs bd rest s _ _
        (List.mem_append_right _ (List.mem_singleton.mpr rfl))
    · cases he' : r'.enabled with
      | false =>
        simp only [loadMasterLoop, he', Bool.false_eq_true, if_false]
        exact loadMasterLoop_warns fs bd rest s ws r hmem' he hfs hrest
      | true =>
        cases hfs' : fs (bd ++ "/" ++ r'.path) with
        | missing =>
          simp only [loadMasterLoop, he', if_true, hfs', if_pos rfl]
          exact loadMasterLoop_warns fs bd rest s _ r hmem' he hfs hrest
        | malformed => exact absurd hfs' (hnm r' (List.mem_cons_self r' rest) he')
        | ok m0 =>
          simp only [loadMasterLoop, he', if_true, hfs', loadModule]
          simp only [reduceCtorEq, if_false]
          exact loadMasterLoop_warns fs bd rest _ ws r hmem' he hfs hrest

theorem loadMasterLoop_abort (fs : String → FileResult) (bd : String) :
    ∀ (pre : List ModuleReference) (r : ModuleReference) (post : List ModuleReference)
      (s : MFPState) (ws : List String),
      r.enabled = true →
      fs (bd ++ "/" ++ r.path) = FileResult.malformed →
      (∀ r' ∈ pre, r'.enabled = true →
        fs (bd ++ "/" ++ r'.path) ≠ FileResult.malformed) →
      (loadMasterLoop fs bd (pre ++ r :: post) s ws).1 =
        Except.error (LoadError.yamlError (bd ++ "/" ++ r.path))
  | [], r, post, s, ws, he, hfs, _ => by
    simp [loadMasterLoop, he, hfs, loadModule]
  | r'' :: pre, r, post, s, ws, he, hfs, hpre => by
    have hpre' : ∀ r' ∈ pre, r'.enabled = true →
        fs (bd ++ "/" ++ r'.path) ≠ FileResult.malformed :=
      fun r' hr' => hpre r' (List.mem_cons_of_mem _ hr')
    cases he'' : r''.enabled with
    | false =>
      simp only [List.cons_append, loadMasterLoop, he'', Bool.false_eq_true, if_false]
      exact loadMasterLoop_abort fs bd pre r post s ws he hfs hpre'
    | true =>
      cases hfs'' : fs (bd ++ "/" ++ r''.path) with
      | missing =>
        simp only [List.cons_append, loadMasterLoop, he'', if_true, hfs'', if_pos rfl]
        exact loadMasterLoop_abort fs bd pre r post s _ he hfs hpre'
      | malformed =>
        exact absurd hfs'' (hpre r'' (List.mem_cons_self r'' _) he'')
      | ok m0 =>
        simp only [List.cons_append, loadMasterLoop, he'', if_true, hfs'', loadModule]
        simp only [reduceCtorEq, if_false]
        exact loadMasterLoop_abort fs bd pre r post _ ws he hfs hpre'

/-- C9 counterexample: `master9` references a malformed module
(`bad.yaml`) before a perfectly loadable one (`good.yaml`); `load_master`
propagates the parse error, the overall load fails, and `good.yaml` —
although loadable — was never attempted: the final state holds no modules
at all.  This contradicts the claim that the other referenced modules
still attempt to load, yielding a usable partial project. -/
theorem malformed_module_aborts_load :
    fs9 "/proj/good.yaml" = FileResult.ok mod9 ∧
    (loadMaster fs9 master9 "/proj/master.yaml" sEmpty).1 =
      Except.error (LoadError.yamlError "/proj/bad.yaml") ∧
    (loadMaster fs9 master9 "/proj/master.yaml" sEmpty).2.1.modules = [] :=
  ⟨rfl, rfl, rfl⟩

/-- C9 (amended): loading a master tolerates missing module files but a
malformed one aborts the whole load.  When no enabled referenced module
file is malformed, `load_master` succeeds: every enabled module whose
file is missing is skipped with a warning and is absent from the loaded
modules, and every enabled module whose file parses is loaded.  When the
first malformed enabled reference exists, `load_master` raises that
module's parse error — the remaining referenced modules are not loaded
(no usable partial project results). -/
theorem load_master_missing_vs_malformed :
    (∀ (fs : String → FileResult) (doc : MasterProject) (mp : String) (s : MFPState),
      (∀ r ∈ doc.modules, r.enabled = true →
        fs (parentDir mp ++ "/" ++ r.path) ≠ FileResult.malformed) →
      (loadMaster fs doc mp s).1 = Except.ok () ∧
      (∀ r ∈ doc.modules, r.enabled = true →
        fs (parentDir mp ++ "/" ++ r.path) = FileResult.missing →
        ("Warning: Module not found: " ++ (parentDir mp ++ "/" ++ r.path)) ∈
          (loadMaster fs doc mp s).2.2) ∧
      (∀ q, fs q = FileResult.missing →
        dictFind? q (loadMaster fs doc mp s).2.1.modules = none) ∧
      (∀ r ∈ doc.modules, r.enabled = true → ∀ m,
        fs (parentDir mp ++ "/" ++ r.path) = FileResult.ok m →
        ∃ m', dictFind? (parentDir mp ++ "/" ++ r.path)
          (loadMaster fs doc mp s).2.1.modules = some m')) ∧
    (∀ (fs : String → FileResult) (doc : MasterProject) (mp : String) (s : MFPState)
      (pre : List ModuleReference) (r : ModuleReference) (post : List ModuleReference),
      doc.modules = pre ++ r :: post → r.enabled = true →
      fs (parentDir mp ++ "/" ++ r.path) = FileResult.malformed →
      (∀ r' ∈ pre, r'.enabled = true →
        fs (parentDir mp ++ "/" ++ r'.path) ≠ FileResult.malformed) →
      (loadMaster fs doc mp s).1 =
        Except.error (LoadError.yamlError (parentDir mp ++ "/" ++ r.path))) := by
  constructor
  · intro fs doc mp s hnm
    rcases hLL : loadMasterLoop fs (parentDir mp) doc.modules
        { s with master := doc, master_path := some mp,
                 modules := [], module_paths := [] } [] with ⟨res, s2, ws2⟩
    have hok : res = Except.ok () := by
      have := loadMasterLoop_ok fs (parentDir mp) doc.modules
        { s with master := doc, master_path := some mp,
                 modules := [], module_paths := [] } [] hnm
      rwa [hLL] at this
    subst hok
    refine ⟨?_, ?_, ?_, ?_⟩
    · simp [loadMaster, hLL]
    · intro r hr he hfs
      have := loadMasterLoop_warns fs (parentDir mp) doc.modules
        { s with master := doc, master_path := some mp,
                 modules := [], module_paths := [] } [] r hr he hfs hnm
      rw [hLL] at this
      simpa [loadMaster, hLL] using this
    · intro q hq
      have := loadMasterLoop_missing_absent fs (parentDir mp) doc.modules
        { s with master := doc, master_path := some mp,
                 modules := [], module_paths := [] } [] q hq rfl
      rw [hLL] at this
      simpa [loadMaster, hLL] using this
    · intro r hr he m hfs
      have := loadMasterLoop_loads fs (parentDir mp) doc.modules
        { s with master := doc, master_path := some mp,
                 modules := [], module_paths := [] } [] r m hr he hfs hnm
      rw [hLL] at this
      simpa [loadMaster, hLL] using this
  · intro fs doc mp s pre r post hsplit he hfs hpre
    rcases hLL : loadMasterLoop fs (parentDir mp) doc.modules
        { s with master := doc, master_path := some mp,
                 modules := [], module_paths := [] } [] with ⟨res, s2, ws2⟩
    have habort := loadMasterLoop_abort fs (parentDir mp) pre r post
      { s with master := doc, master_path := some mp,
               modules := [], module_paths := [] } [] he hfs hpre
    rw [← hsplit, hLL] at habort
    simp only at habort
    subst habort
    simp [loadMaster, hLL]

/-- C9 witness: the amended theorem applied to `masterW` (whose first
referenced module file is missing and second parses — load succeeds, the
warning is emitted, the missing path is absent, the good path is loaded)
and to `master9` (whose first referenced module file is malformed — the
load fails with that module's parse error). -/
theorem load_master_missing_vs_malformed_witness :
    (loadMaster fsW masterW "/proj/master.yaml" sEmpty).1 = Except.ok () ∧
    ("Warning: Module not found: " ++
        (parentDir "/proj/master.yaml" ++ "/" ++ "absent.yaml")) ∈
      (loadMaster fsW masterW "/proj/master.yaml" sEmpty).2.2 ∧
    dictFind? "/proj/absent.yaml"
      (loadMaster fsW masterW "/proj/master.yaml" sEmpty).2.1.modules = none ∧
    (∃ m', dictFind? (parentDir "/proj/master.yaml" ++ "/" ++ "good.yaml")
      (loadMaster fsW masterW "/proj/master.yaml" sEmpty).2.1.modules = some m') ∧
    (loadMaster fs9 master9 "/proj/master.yaml" sEmpty).1 =
      Except.error (LoadError.yamlError (parentDir "/proj/master.yaml" ++ "/" ++ "bad.yaml")) := by
  have hW := load_master_missing_vs_malformed.1 fsW masterW "/proj/master.yaml" sEmpty
    (by decide)
  refine ⟨hW.1, ?_, hW.2.2.1 "/proj/absent.yaml" (by decide), ?_, ?_⟩
  · exact hW.2.1 refAbsent (by decide) (by decide) (by decide)
  · exact hW.2.2.2 refGood (by decide) (by decide) mod9 (by decide)
  · exact load_master_missing_vs_malformed.2 fs9 master9 "/proj/master.yaml" sEmpty
      [] refBad [refGood] rfl rfl (by decide) (by decide)

/-! ## C8: unrecognized enum tags fail document load -/

theorem portDirection_bad_tag {s : String}
    (h : s ∉ ["provided", "required"]) : PortDirection.ofTag? s = none := by
  simp at h
  simp [PortDirection.ofTag?, h.1, h.2]

theorem interfaceType_bad_tag {s : String}
    (h : s ∉ ["sender_receiver", "client_server"]) : InterfaceType.ofTag? s = none := by
  simp at h
  simp [InterfaceType.ofTag?, h.1, h.2]

theorem baseDataType_bad_tag {s : String}
    (h : s ∉ ["uint8", "uint16", "uint32", "uint64", "int8", "int16", "int32",
      "int64", "float32", "float64", "boolean"]) : BaseDataType.ofTag? s = none := by
  simp at h
  obtain ⟨h1, h2, h3, h4, h5, h6, h7, h8, h9, h10, h11⟩ := h
  simp [BaseDataType.ofTag?, h1, h2, h3, h4, h5, h6, h7, h8, h9, h10, h11]

theorem appDataCategory_bad_tag {s : String}
    (h : s ∉ ["value", "array", "structure", "enum"]) :
    AppDataCategory.ofTag? s = none := by
  simp at h
  obtain ⟨h1, h2, h3, h4⟩ := h
  simp [AppDataCategory.ofTag?, h1, h2, h3, h4]

theorem argumentDirection_bad_tag {s : String}
    (h : s ∉ ["in", "out", "inout"]) : ArgumentDirection.ofTag? s = none := by
  simp at h
  simp [ArgumentDirection.ofTag?, h.1, h.2.1, h.2.2]

/-- C8: when a persisted record's enum-tagged field (a port's direction,
an interface's interface_type, a base_type, an application data category,
an argument direction) holds a string outside its closed tag set, the
corresponding `from_dict` fails with a hard `SchemaError` — and the
failure propagates so the whole `Project.from_dict` load fails — whereas
a *missing* optional field is silently defaulted (a port document without
the `direction` key decodes to a required port). -/
theorem invalid_enum_tag_fails_load :
    (∀ s n iu ds u, s ∉ ["provided", "required"] →
      Port.from_dict ⟨some n, some s, iu, ds, u⟩ =
        Except.error (SchemaError.invalidTag "PortDirection" s)) ∧
    (∀ s n des ops ds u, s ∉ ["sender_receiver", "client_server"] →
      Interface.from_dict ⟨some n, some s, des, ops, ds, u⟩ =
        Except.error (SchemaError.invalidTag "InterfaceType" s)) ∧
    (∀ s n au iv ds u, s ∉ ["uint8", "uint16", "uint32", "uint64", "int8", "int16",
        "int32", "int64", "float32", "float64", "boolean"] →
      DataElement.from_dict ⟨some n, au, some s, iv, ds, u⟩ =
        Except.error (SchemaError.invalidTag "BaseDataType" s)) ∧
    (∀ s n cm mn mx iv ds asz et u, s ∉ ["value", "array", "structure", "enum"] →
      ApplicationDataType.from_dict ⟨some n, some s, cm, mn, mx, iv, ds, asz, et,
        none, none, u⟩ =
        Except.error (SchemaError.invalidTag "AppDataCategory" s)) ∧
    (∀ s n au ds u, s ∉ ["in", "out", "inout"] →
      OperationArgument.from_dict ⟨some n, some s, au, none, ds, u⟩ =
        Except.error (SchemaError.invalidTag "ArgumentDirection" s)) ∧
    (∀ n iu ds u, Port.from_dict ⟨some n, none, iu, ds, u⟩ =
      Except.ok { name := n, direction := .required, interface_uid := iu,
                  description := ds.getD "", uid := u.getD freshUid }) ∧
    (∀ s npc ppc, s ∉ ["provided", "required"] →
      Project.from_dict ⟨none, none, none, none, none, none, none,
        some [⟨some npc, some [⟨some ppc, some s, none, none, none⟩],
          none, none, none⟩], none⟩ =
        Except.error (SchemaError.invalidTag "PortDirection" s)) := by
  refine ⟨?_, ?_, ?_, ?_, ?_, ?_, ?_⟩
  · intro s n iu ds u h
    simp [Port.from_dict, requireKey, parseTag, portDirection_bad_tag h,
      Bind.bind, Except.bind]
  · intro s n des ops ds u h
    simp [Interface.from_dict, requireKey, parseTag, interfaceType_bad_tag h,
      Bind.bind, Except.bind]
  · intro s n au iv ds u h
    simp [DataElement.from_dict, requireKey, parseTag, baseDataType_bad_tag h,
      Bind.bind, Except.bind]
  · intro s n cm mn mx iv ds asz et u h
    simp [ApplicationDataType.from_dict, exceptMap, requireKey, parseTag,
      appDataCategory_bad_tag h, Bind.bind, Except.bind]
  · intro s n au ds u h
    simp [OperationArgument.from_dict, requireKey, parseTag,
      argumentDirection_bad_tag h, Bind.bind, Except.bind]
  · intro n iu ds u
    rfl
  · intro s npc ppc h
    simp [Project.from_dict, SoftwareComponent.from_dict, Port.from_dict,
      exceptMap, requireKey, parseTag, portDirection_bad_tag h,
      Bind.bind, Except.bind]

/-- C8 witness: the theorem applied at concrete invalid tags, plus the
defaulting contrast at a port document lacking the `direction` key. -/
theorem invalid_enum_tag_fails_load_witness :
    Port.from_dict ⟨some "P", some "sideways", none, none, none⟩ =
      Except.error (SchemaError.invalidTag "PortDirection" "sideways") ∧
    Interface.from_dict ⟨some "I", some "broadcast", none, none, none, none⟩ =
      Except.error (SchemaError.invalidTag "InterfaceType" "broadcast") ∧
    DataElement.from_dict ⟨some "D", none, some "uint128", none, none, none⟩ =
      Except.error (SchemaError.invalidTag "BaseDataType" "uint128") ∧
    ApplicationDataType.from_dict ⟨some "A", some "tuple", none, none, none, none,
        none, none, none, none, none, none⟩ =
      Except.error (SchemaError.invalidTag "AppDataCategory" "tuple") ∧
    OperationArgument.from_dict ⟨some "G", some "ref", none, none, none, none⟩ =
      Except.error (SchemaError.invalidTag "ArgumentDirection" "ref") ∧
    Port.from_dict ⟨some "P", none, none, none, none⟩ =
      Except.ok { name := "P", uid := freshUid } ∧
    Project.from_dict ⟨none, none, none, none, none, none, none,
        some [⟨some "C", some [⟨some "Q", some "sideways", none, none, none⟩],
          none, none, none⟩], none⟩ =
      Except.error (SchemaError.invalidTag "PortDirection" "sideways") :=
  ⟨invalid_enum_tag_fails_load.1 "sideways" "P" none none none (by decide),
   invalid_enum_tag_fails_load.2.1 "broadcast" "I" none none none none (by decide),
   invalid_enum_tag_fails_load.2.2.1 "uint128" "D" none none none none (by decide),
   invalid_enum_tag_fails_load.2.2.2.1 "tuple" "A" none none none none none none
     none none (by decide),
   invalid_enum_tag_fails_load.2.2.2.2.1 "ref" "G" none none none (by decide),
   invalid_enum_tag_fails_load.2.2.2.2.2.1 "P" none none none,
   invalid_enum_tag_fails_load.2.2.2.2.2.2 "sideways" "C" "Q" (by decide)⟩

end Autosar
